import Mathlib

/-! Verification of the Site_Checker monitor: a shallow embedding of
src/index.ts and src/types.ts, with theorems about the check cycle,
failure counting, alerting, scheduling and startup validation. -/

namespace SiteChecker

/-- Numeric value of STATUS.COOLDOWN in the enum of src/types.ts. -/
def STATUS.COOLDOWN : Nat := 0

/-- Numeric value of STATUS.WAIT in the enum of src/types.ts. -/
def STATUS.WAIT : Nat := 1

/-- Numeric value of STATUS.READY in the enum of src/types.ts. -/
def STATUS.READY : Nat := 2

/-- Numeric value of STATUS.GAVE_UP in the enum of src/types.ts. -/
def STATUS.GAVE_UP : Nat := 3

/-- Site configuration interface from src/types.ts (status carries the
numeric STATUS value). -/
structure Site where
  name : String
  url : String
  textMatch : String
  interval : Nat
  msgCooldown : Nat
  status : Nat
  deriving DecidableEq

/-- Number of fails permitted when checking before giving up
(src/index.ts line 24). -/
def ATTEMPTS_BEFORE_GIVING_UP : Nat := 3

/-- Milliseconds in a minute (src/index.ts line 26). -/
def MINUTES : Nat := 1000 * 60

/-- Milliseconds in an hour (src/index.ts line 27). -/
def HOURS : Nat := 1000 * 60 * 60

/-- The one configured site (src/index.ts lines 29-38). -/
def siteLib : Site :=
  { name := "LibTheatreRoom",
    url := "https://byu.libcal.com/reserve/mediaviewroomss",
    textMatch := "This resource is temporarily unavailable.",
    interval := 5 * MINUTES,
    msgCooldown := 4 * HOURS,
    status := STATUS.READY }

/-- The configured site list (src/index.ts lines 29-38). -/
def sites : List Site := [siteLib]

/-- Whether the pattern list is a prefix of the text list, on characters. -/
def hasPrefixChars : List Char → List Char → Bool
  | [], _ => true
  | _ :: _, [] => false
  | a :: as, b :: bs => a == b && hasPrefixChars as bs

/-- Whether the pattern occurs as a contiguous run inside the text. -/
def hasSubstringChars (sub : List Char) : List Char → Bool
  | [] => hasPrefixChars sub []
  | b :: bs => hasPrefixChars sub (b :: bs) || hasSubstringChars sub bs

/-- JS String.prototype.includes as used at src/index.ts line 93: true
exactly when sub occurs in s as a literal substring. -/
def includes (s sub : String) : Bool :=
  hasSubstringChars sub.data s.data

/-- The three alert emails the monitor can initiate, identified by which
sendAlert call site fires (src/index.ts lines 63, 67 and 96). -/
inductive AlertKind
  | failedOnce
  | givingUp
  | contentsChanged
  deriving DecidableEq

/-- Observable outcome of one check cycle: the STATUS value returned, the
alerts whose send was initiated during the cycle, and the value of
failedAttempts for the site after the cycle. -/
structure CheckResult where
  status : Nat
  alerts : List AlertKind
  failedAttempts : Nat
  deriving DecidableEq

/-- Embedding of checkErrorHandler (src/index.ts lines 57-72): increment
failedAttempts; on the first failure send the failed-once alert and return
COOLDOWN; past ATTEMPTS_BEFORE_GIVING_UP send the giving-up alert and
return GAVE_UP; otherwise return COOLDOWN with no alert. -/
def checkErrorHandler (site : Site) (e : String) (fa : Nat) : CheckResult :=
  if fa + 1 = 1 then
    { status := STATUS.COOLDOWN, alerts := [AlertKind.failedOnce], failedAttempts := fa + 1 }
  else if fa + 1 > ATTEMPTS_BEFORE_GIVING_UP then
    { status := STATUS.GAVE_UP, alerts := [AlertKind.givingUp], failedAttempts := fa + 1 }
  else
    { status := STATUS.COOLDOWN, alerts := [], failedAttempts := fa + 1 }

instance : DecidableEq (Except String String) := fun x y =>
  match x, y with
  | Except.error a, Except.error b =>
    if h : a = b then isTrue (congrArg Except.error h)
    else isFalse (fun he => h (Except.error.inj he))
  | Except.error _, Except.ok _ => isFalse (fun he => Except.noConfusion he)
  | Except.ok _, Except.error _ => isFalse (fun he => Except.noConfusion he)
  | Except.ok a, Except.ok b =>
    if h : a = b then isTrue (congrArg Except.ok h)
    else isFalse (fun he => h (Except.ok.inj he))

/-- Outcome of the I/O in check (src/index.ts lines 76-92): the fetch call
may throw; otherwise it yields a status code and the result of reading the
body text, which may itself fail. -/
inductive FetchResult
  | fetchThrow (e : String)
  | response (status : Nat) (body : Except String String)
  deriving DecidableEq

/-- Embedding of check (src/index.ts lines 74-102): route fetch throw,
non-200 status and body-read failure to checkErrorHandler; on a 200
response with readable body, search for site.textMatch — absent sends the
contents-changed alert and returns COOLDOWN, present returns WAIT; the
counter is untouched on both success branches. -/
def check (site : Site) (f : FetchResult) (fa : Nat) : CheckResult :=
  match f with
  | FetchResult.fetchThrow e => checkErrorHandler site e fa
  | FetchResult.response status body =>
    if status ≠ 200 then
      checkErrorHandler site (s!"Status code on HTTP request was {status}, not 200") fa
    else
      match body with
      | Except.error e => checkErrorHandler site e fa
      | Except.ok html =>
        if !(includes html site.textMatch) then
          { status := STATUS.COOLDOWN, alerts := [AlertKind.contentsChanged],
            failedAttempts := fa }
        else
          { status := STATUS.WAIT, alerts := [], failedAttempts := fa }

/-- The scheduling action the handler switch takes (src/index.ts lines
112-134): arm a one-shot timer, re-run immediately, arm nothing, or the
fatal default that calls process.exit(1). -/
inductive SchedAction
  | armTimer (delay : Nat)
  | runNow
  | noTimer
  | exitProcess
  deriving DecidableEq

/-- The switch of handler (src/index.ts lines 113-134) on the STATUS value
returned by check: COOLDOWN arms site.msgCooldown, WAIT arms site.interval,
READY re-runs immediately, GAVE_UP arms nothing, anything else is the
fatal default. -/
def handlerSwitch (site : Site) (status : Nat) : SchedAction :=
  if status = STATUS.COOLDOWN then SchedAction.armTimer site.msgCooldown
  else if status = STATUS.WAIT then SchedAction.armTimer site.interval
  else if status = STATUS.READY then SchedAction.runNow
  else if status = STATUS.GAVE_UP then SchedAction.noTimer
  else SchedAction.exitProcess

/-- handler (src/index.ts lines 104-135): run check, then take the
scheduling decision on the returned status. -/
def handler (site : Site) (f : FetchResult) (fa : Nat) : CheckResult × SchedAction :=
  let r := check site f fa
  (r, handlerSwitch site r.status)

/-- Whether a scheduling action leads to another invocation of handler:
true for an armed timer and for the immediate re-run, false when no timer
is armed (GAVE_UP) and for the fatal default. -/
def continuesAfter : SchedAction → Bool
  | SchedAction.armTimer _ => true
  | SchedAction.runNow => true
  | SchedAction.noTimer => false
  | SchedAction.exitProcess => false

/-- The per-site check loop driven by the event emitter and the timers of
handler: one CheckResult per completed cycle, given the sequence of fetch
outcomes the cycles would see; the loop ends after a cycle whose
scheduling action arms no further invocation. -/
def runChecks (site : Site) (fa : Nat) : List FetchResult → List CheckResult
  | [] => []
  | f :: fs =>
    if continuesAfter (handlerSwitch site (check site f fa).status) then
      check site f fa :: runChecks site (check site f fa).failedAttempts fs
    else
      [check site f fa]

/-- Log severities used by the monitor (pino levels). -/
inductive LogLevel
  | debug
  | info
  | warn
  | fatal
  deriving DecidableEq

/-- Trace of one sendAlert invocation (src/index.ts lines 47-55), given
whether transporter.sendMail resolves: the severities of the log lines the
call writes, and whether the promise sendAlert returns is rejected. Every
caller invokes sendAlert without await, try/catch or a rejection handler,
and sendAlert itself has no try/catch, so a rejected promise recorded here
is unhandled by the program. -/
structure SendTrace where
  logs : List LogLevel
  unhandledRejection : Bool
  deriving DecidableEq

/-- sendAlert (src/index.ts lines 47-55): a debug line before the awaited
sendMail; on resolution a second debug line; on rejection no further log
line and a rejected, never-handled promise. -/
def sendAlert (sendOk : Bool) : SendTrace :=
  if sendOk then
    { logs := [LogLevel.debug, LogLevel.debug], unhandledRejection := false }
  else
    { logs := [LogLevel.debug], unhandledRejection := true }

/-- One check cycle together with the fire-and-forget alert sends it
initiates; sendOk tells whether transporter.sendMail resolves during this
cycle. The CheckResult component is computed without consulting the send
outcome, mirroring that the code discards the promise sendAlert returns. -/
def checkCycle (site : Site) (f : FetchResult) (fa : Nat) (sendOk : Bool) :
    CheckResult × List SendTrace :=
  let r := check site f fa
  (r, List.map (fun _ => sendAlert sendOk) r.alerts)

/-- The two mail environment variables read at startup (none models an
unset variable, which == null catches in src/index.ts line 178). -/
structure Env where
  MAIL_USERNAME : Option String
  MAIL_APP_PASSWORD : Option String
  deriving DecidableEq

/-- verifyExistenceOfImportantEnvVars (src/index.ts lines 177-183):
process.exit(1) when either variable is null or undefined. -/
def verifyExistenceOfImportantEnvVars (env : Env) : Except Nat Unit :=
  if env.MAIL_USERNAME.isNone || env.MAIL_APP_PASSWORD.isNone then Except.error 1
  else Except.ok ()

/-- verifyTransport (src/index.ts lines 150-161): process.exit(1) when the
awaited transporter.verify rejects. -/
def verifyTransport (verifyOk : Bool) : Except Nat Unit :=
  if verifyOk then Except.ok () else Except.error 1

/-- The startup sequence of main (src/index.ts lines 42-45 and 137-145) up
to the registration of the per-site listeners: Except.error c models
process.exit with code c reached before any site check is scheduled;
Except.ok returns the names of the sites whose initial check events are
emitted. -/
def startup (env : Env) (verifyOk : Bool) : Except Nat (List String) :=
  match verifyExistenceOfImportantEnvVars env with
  | Except.error c => Except.error c
  | Except.ok _ =>
    match verifyTransport verifyOk with
    | Except.error c => Except.error c
    | Except.ok _ => Except.ok (List.map Site.name sites)

/-- Every element of the trace whose status is GAVE_UP is the trace's last
element: no further check cycle ever follows it. -/
def GaveUpTerminal : List CheckResult → Prop
  | [] => True
  | r :: rs => (r.status = STATUS.GAVE_UP → rs = []) ∧ GaveUpTerminal rs

/-- The fetch outcomes that check routes to checkErrorHandler: a thrown
fetch call, a non-200 status code, or a body-read failure. -/
def isFailure : FetchResult → Bool
  | FetchResult.fetchThrow _ => true
  | FetchResult.response _ (Except.error _) => true
  | FetchResult.response s (Except.ok _) => s != 200

/-- A body that contains siteLib.textMatch, used as a concrete input. -/
def demoMatchBody : String :=
  "Reservation page. This resource is temporarily unavailable. Check back soon."

/-- A body that does not contain siteLib.textMatch, used as a concrete
input. -/
def demoNoMatchBody : String :=
  "Reservation page. Rooms are open for booking today."

/-- A run of six fetch outcomes: four failures with two successful,
text-matching checks interleaved between them. -/
def demoFetches : List FetchResult :=
  [FetchResult.fetchThrow "network down",
   FetchResult.response 200 (Except.ok demoMatchBody),
   FetchResult.fetchThrow "network down again",
   FetchResult.response 200 (Except.ok demoMatchBody),
   FetchResult.fetchThrow "network down a third time",
   FetchResult.fetchThrow "network down a fourth time"]

/-- check routes every failing fetch outcome (thrown fetch, non-200
status, body-read failure) to checkErrorHandler on the same counter. -/
theorem check_eq_errorHandler_of_isFailure (site : Site) (f : FetchResult) (fa : Nat)
    (h : isFailure f = true) :
    ∃ e, check site f fa = checkErrorHandler site e fa := by
  cases f with
  | fetchThrow e => exact ⟨e, rfl⟩
  | response s body =>
    cases body with
    | error e =>
      by_cases hs : s = 200
      · subst hs
        exact ⟨e, by simp [check]⟩
      · exact ⟨s!"Status code on HTTP request was {s}, not 200", by simp [check, hs]⟩
    | ok html =>
      have hs : s ≠ 200 := by simpa [isFailure] using h
      exact ⟨s!"Status code on HTTP request was {s}, not 200", by simp [check, hs]⟩

/-- Case analysis of checkErrorHandler on the incoming counter value. -/
theorem checkErrorHandler_spec (site : Site) (e : String) (fa : Nat) :
    (checkErrorHandler site e fa).failedAttempts = fa + 1 ∧
    (fa = 0 → checkErrorHandler site e fa =
      { status := STATUS.COOLDOWN, alerts := [AlertKind.failedOnce], failedAttempts := fa + 1 }) ∧
    (fa = 1 ∨ fa = 2 → checkErrorHandler site e fa =
      { status := STATUS.COOLDOWN, alerts := [], failedAttempts := fa + 1 }) ∧
    (3 ≤ fa → checkErrorHandler site e fa =
      { status := STATUS.GAVE_UP, alerts := [AlertKind.givingUp], failedAttempts := fa + 1 }) := by
  refine ⟨by unfold checkErrorHandler; split_ifs <;> rfl, ?_, ?_, ?_⟩
  · intro h
    subst h
    rfl
  · rintro (h | h) <;> subst h <;> rfl
  · intro h
    unfold checkErrorHandler
    rw [if_neg (by omega),
      if_pos (show fa + 1 > ATTEMPTS_BEFORE_GIVING_UP by unfold ATTEMPTS_BEFORE_GIVING_UP; omega)]

/-- C2: with ATTEMPTS_BEFORE_GIVING_UP = 3, a failing check that brings
the counter to 1 sends exactly the one failed-once alert and returns
COOLDOWN; one that brings it to 2 or 3 sends no alert and returns
COOLDOWN; one that brings it above 3 sends exactly the one giving-up alert
and returns GAVE_UP; and every failing check increments the counter by
exactly 1. -/
theorem failing_check_escalation (site : Site) (f : FetchResult) (fa : Nat)
    (h : isFailure f = true) :
    ATTEMPTS_BEFORE_GIVING_UP = 3 ∧
    (check site f fa).failedAttempts = fa + 1 ∧
    (fa + 1 = 1 → (check site f fa).alerts = [AlertKind.failedOnce] ∧
      (check site f fa).status = STATUS.COOLDOWN) ∧
    (fa + 1 = 2 ∨ fa + 1 = 3 → (check site f fa).alerts = [] ∧
      (check site f fa).status = STATUS.COOLDOWN) ∧
    (fa + 1 > 3 → (check site f fa).alerts = [AlertKind.givingUp] ∧
      (check site f fa).status = STATUS.GAVE_UP) := by
  obtain ⟨e, he⟩ := check_eq_errorHandler_of_isFailure site f fa h
  rw [he]
  obtain ⟨h1, h2, h3, h4⟩ := checkErrorHandler_spec site e fa
  refine ⟨rfl, h1, ?_, ?_, ?_⟩
  · intro hfa
    rw [h2 (by omega)]
    exact ⟨rfl, rfl⟩
  · intro hfa
    rw [h3 (by omega)]
    exact ⟨rfl, rfl⟩
  · intro hfa
    rw [h4 (by omega)]
    exact ⟨rfl, rfl⟩

/-- Witness for failing_check_escalation: siteLib, a thrown fetch, counter
0 — the failed-once alert is sent and COOLDOWN returned. -/
theorem failing_check_escalation_witness :
    (check siteLib (FetchResult.fetchThrow "network down") 0).alerts =
      [AlertKind.failedOnce] ∧
    (check siteLib (FetchResult.fetchThrow "network down") 0).status = STATUS.COOLDOWN :=
  (failing_check_escalation siteLib (FetchResult.fetchThrow "network down") 0 rfl).2.2.1 rfl

/-- C1 amended: a check whose fetch succeeds with HTTP status 200 and a
readable body leaves failedAttempts unchanged — so it equals 0 after the
check only if it already was 0 — regardless of whether the body contains
site.textMatch. -/
theorem success_leaves_counter_unchanged (site : Site) (html : String) (fa : Nat) :
    (check site (FetchResult.response 200 (Except.ok html)) fa).failedAttempts = fa := by
  cases hm : includes html site.textMatch <;> simp [check, hm]

/-- C1 as stated fails on the code: with the counter at 1, a check whose
fetch succeeds with status 200 and a readable body containing
siteLib.textMatch leaves failedAttempts at 1 instead of resetting it
to 0. -/
theorem success_reset_counterexample :
    (check siteLib (FetchResult.response 200 (Except.ok demoMatchBody)) 1).failedAttempts
      = 1 ∧
    ¬ (check siteLib (FetchResult.response 200 (Except.ok demoMatchBody)) 1).failedAttempts
      = 0 := by
  decide

/-- C3: the returned Status and the counter of a check cycle never depend
on whether the alert send resolves, but a send failure is neither logged
nor swallowed — at a concrete cycle that initiates an alert and whose
sendMail rejects, the trace records an unhandled promise rejection with no
log line after the single pre-send debug line. -/
theorem alert_send_failure_unhandled :
    (∀ (site : Site) (f : FetchResult) (fa : Nat) (s1 s2 : Bool),
      (checkCycle site f fa s1).1 = (checkCycle site f fa s2).1) ∧
    (checkCycle siteLib (FetchResult.response 200 (Except.ok demoNoMatchBody)) 0
        false).1.status = STATUS.COOLDOWN ∧
    (checkCycle siteLib (FetchResult.response 200 (Except.ok demoNoMatchBody)) 0
        false).2 =
      [{ logs := [LogLevel.debug], unhandledRejection := true }] :=
  ⟨fun _ _ _ _ _ => rfl, by decide, by decide⟩

/-- C4: a check whose fetch returns 200 with a readable body containing
site.textMatch returns WAIT, initiates no alert, and the scheduler arms a
one-shot timer of exactly site.interval milliseconds for the next check. -/
theorem match_found_waits (site : Site) (html : String) (fa : Nat)
    (h : includes html site.textMatch = true) :
    (check site (FetchResult.response 200 (Except.ok html)) fa).status = STATUS.WAIT ∧
    (check site (FetchResult.response 200 (Except.ok html)) fa).alerts = [] ∧
    handlerSwitch site
        (check site (FetchResult.response 200 (Except.ok html)) fa).status =
      SchedAction.armTimer site.interval := by
  have hc : check site (FetchResult.response 200 (Except.ok html)) fa =
      { status := STATUS.WAIT, alerts := [], failedAttempts := fa } := by
    simp [check, h]
  rw [hc]
  exact ⟨rfl, rfl, rfl⟩

/-- Witness for match_found_waits: siteLib with a body containing its
textMatch at counter 0. -/
theorem match_found_waits_witness :
    (check siteLib (FetchResult.response 200 (Except.ok demoMatchBody)) 0).status
        = STATUS.WAIT ∧
    (check siteLib (FetchResult.response 200 (Except.ok demoMatchBody)) 0).alerts = [] ∧
    handlerSwitch siteLib
        (check siteLib (FetchResult.response 200 (Except.ok demoMatchBody)) 0).status =
      SchedAction.armTimer siteLib.interval :=
  match_found_waits siteLib demoMatchBody 0 (by decide)

/-- C5: a check whose fetch returns 200 with a readable body not
containing site.textMatch returns COOLDOWN, initiates exactly the one
contents-changed alert, and the scheduler arms a one-shot timer of exactly
site.msgCooldown milliseconds for the next check. -/
theorem match_missing_cooldown (site : Site) (html : String) (fa : Nat)
    (h : includes html site.textMatch = false) :
    (check site (FetchResult.response 200 (Except.ok html)) fa).status = STATUS.COOLDOWN ∧
    (check site (FetchResult.response 200 (Except.ok html)) fa).alerts =
      [AlertKind.contentsChanged] ∧
    handlerSwitch site
        (check site (FetchResult.response 200 (Except.ok html)) fa).status =
      SchedAction.armTimer site.msgCooldown := by
  have hc : check site (FetchResult.response 200 (Except.ok html)) fa =
      { status := STATUS.COOLDOWN, alerts := [AlertKind.contentsChanged],
        failedAttempts := fa } := by
    simp [check, h]
  rw [hc]
  exact ⟨rfl, rfl, rfl⟩

/-- Witness for match_missing_cooldown: siteLib with a body lacking its
textMatch at counter 0. -/
theorem match_missing_cooldown_witness :
    (check siteLib (FetchResult.response 200 (Except.ok demoNoMatchBody)) 0).status
        = STATUS.COOLDOWN ∧
    (check siteLib (FetchResult.response 200 (Except.ok demoNoMatchBody)) 0).alerts =
      [AlertKind.contentsChanged] ∧
    handlerSwitch siteLib
        (check siteLib (FetchResult.response 200 (Except.ok demoNoMatchBody)) 0).status =
      SchedAction.armTimer siteLib.msgCooldown :=
  match_missing_cooldown siteLib demoNoMatchBody 0 (by decide)

/-- On GAVE_UP the handler switch arms nothing. -/
theorem handlerSwitch_gaveUp (site : Site) :
    handlerSwitch site STATUS.GAVE_UP = SchedAction.noTimer := rfl

/-- Every run of the check loop has a trace in which a GAVE_UP cycle is the
final cycle. -/
theorem gaveUpTerminal_runChecks (site : Site) :
    ∀ (fs : List FetchResult) (fa : Nat), GaveUpTerminal (runChecks site fa fs) := by
  intro fs
  induction fs with
  | nil => intro fa; exact trivial
  | cons f fs ih =>
    intro fa
    unfold runChecks
    by_cases hc : continuesAfter (handlerSwitch site (check site f fa).status) = true
    · rw [if_pos hc]
      refine ⟨?_, ih _⟩
      intro hg
      rw [hg, handlerSwitch_gaveUp] at hc
      exact absurd hc (by decide)
    · rw [if_neg hc]
      exact ⟨fun _ => rfl, trivial⟩

/-- C6: GAVE_UP is terminal — the scheduler arms no timer on GAVE_UP, and
in every run of the per-site check loop a cycle that returns GAVE_UP is
the last cycle that ever occurs for that site. -/
theorem gave_up_terminal :
    (∀ site : Site, handlerSwitch site STATUS.GAVE_UP = SchedAction.noTimer) ∧
    ∀ (site : Site) (fa : Nat) (fs : List FetchResult),
      GaveUpTerminal (runChecks site fa fs) :=
  ⟨fun _ => rfl, fun site fa fs => gaveUpTerminal_runChecks site fs fa⟩

/-- check only ever returns COOLDOWN, WAIT or GAVE_UP. -/
theorem check_status_cases (site : Site) (f : FetchResult) (fa : Nat) :
    (check site f fa).status = STATUS.COOLDOWN ∨
    (check site f fa).status = STATUS.WAIT ∨
    (check site f fa).status = STATUS.GAVE_UP := by
  cases f with
  | fetchThrow e =>
    simp only [check, checkErrorHandler]
    split_ifs <;> simp
  | response s body =>
    cases body with
    | error e =>
      simp only [check, checkErrorHandler]
      split_ifs <;> simp
    | ok html =>
      simp only [check, checkErrorHandler]
      split_ifs <;> simp

/-- The handler switch reaches its fatal default exactly on a status value
outside the four STATUS enum values 0..3. -/
theorem handlerSwitch_exit_iff (site : Site) (s : Nat) :
    handlerSwitch site s = SchedAction.exitProcess ↔ 4 ≤ s := by
  unfold handlerSwitch STATUS.COOLDOWN STATUS.WAIT STATUS.READY STATUS.GAVE_UP
  split_ifs with h0 h1 h2 h3 <;> simp <;> omega

/-- C7: the scheduler terminates the process exactly on a status outside
the known set {COOLDOWN, WAIT, READY, GAVE_UP}, and that fatal branch is
unreachable from check, which only returns COOLDOWN, WAIT or GAVE_UP and
never READY. -/
theorem fatal_default_unreachable :
    (∀ (site : Site) (s : Nat),
      handlerSwitch site s = SchedAction.exitProcess ↔ 4 ≤ s) ∧
    ∀ (site : Site) (f : FetchResult) (fa : Nat),
      ((check site f fa).status = STATUS.COOLDOWN ∨
        (check site f fa).status = STATUS.WAIT ∨
        (check site f fa).status = STATUS.GAVE_UP) ∧
      (check site f fa).status ≠ STATUS.READY ∧
      handlerSwitch site (check site f fa).status ≠ SchedAction.exitProcess := by
  refine ⟨handlerSwitch_exit_iff, fun site f fa => ?_⟩
  rcases check_status_cases site f fa with h | h | h <;> rw [h] <;>
    exact ⟨by simp, by decide, by simp [handlerSwitch, STATUS.COOLDOWN, STATUS.WAIT,
      STATUS.READY, STATUS.GAVE_UP]⟩

/-- C8: startup exits with the non-zero code 1, before any site check is
scheduled, whenever MAIL_USERNAME or MAIL_APP_PASSWORD is absent or the
awaited transport verification fails. -/
theorem startup_aborts (env : Env) (verifyOk : Bool)
    (h : env.MAIL_USERNAME = none ∨ env.MAIL_APP_PASSWORD = none ∨ verifyOk = false) :
    startup env verifyOk = Except.error 1 ∧ (1 : Nat) ≠ 0 := by
  refine ⟨?_, one_ne_zero⟩
  rcases h with h | h | h
  · simp [startup, verifyExistenceOfImportantEnvVars, h]
  · simp [startup, verifyExistenceOfImportantEnvVars, h]
  · rcases henv : verifyExistenceOfImportantEnvVars env with c | u
    · have hc : c = 1 := by
        unfold verifyExistenceOfImportantEnvVars at henv
        split_ifs at henv with hcond
        exact (Except.error.inj henv).symm
      subst hc
      simp [startup, henv]
    · simp [startup, henv, verifyTransport, h]

/-- Witness for startup_aborts: MAIL_USERNAME unset while the password is
present and verification would succeed. -/
theorem startup_aborts_witness :
    startup { MAIL_USERNAME := none, MAIL_APP_PASSWORD := some "app-password" } true =
      Except.error 1 ∧ (1 : Nat) ≠ 0 :=
  startup_aborts { MAIL_USERNAME := none, MAIL_APP_PASSWORD := some "app-password" } true
    (Or.inl rfl)

/-- C9: check is deterministic on a fresh state — two runs against the
same site with counter 0 that receive the same fetch outcome return the
same Status and make the same alert decision. -/
theorem check_deterministic (site : Site) (f : FetchResult) (r1 r2 : CheckResult)
    (h1 : r1 = check site f 0) (h2 : r2 = check site f 0) :
    r1.status = r2.status ∧ r1.alerts = r2.alerts := by
  subst h1
  subst h2
  exact ⟨rfl, rfl⟩

/-- Witness for check_deterministic: two runs of the failing fetch against
siteLib at counter 0. -/
theorem check_deterministic_witness :
    (check siteLib (FetchResult.fetchThrow "timeout") 0).status =
      (check siteLib (FetchResult.fetchThrow "timeout") 0).status ∧
    (check siteLib (FetchResult.fetchThrow "timeout") 0).alerts =
      (check siteLib (FetchResult.fetchThrow "timeout") 0).alerts :=
  check_deterministic siteLib (FetchResult.fetchThrow "timeout")
    (check siteLib (FetchResult.fetchThrow "timeout") 0)
    (check siteLib (FetchResult.fetchThrow "timeout") 0) rfl rfl

/-- C10: failedAttempts never decreases across any check cycle, and the
give-up threshold can be crossed by failures that are not consecutive — a
concrete run interleaving four failures with two successful text-matching
checks ends with GAVE_UP at counter 4. -/
theorem counter_never_decreases :
    (∀ (site : Site) (f : FetchResult) (fa : Nat),
      fa ≤ (check site f fa).failedAttempts) ∧
    List.map CheckResult.status (runChecks siteLib 0 demoFetches) =
      [STATUS.COOLDOWN, STATUS.WAIT, STATUS.COOLDOWN, STATUS.WAIT,
        STATUS.COOLDOWN, STATUS.GAVE_UP] ∧
    List.map CheckResult.failedAttempts (runChecks siteLib 0 demoFetches) =
      [1, 1, 2, 2, 3, 4] := by
  refine ⟨fun site f fa => ?_, by decide, by decide⟩
  cases f with
  | fetchThrow e =>
    simp only [check, checkErrorHandler]
    split_ifs <;> simp
  | response s body =>
    cases body with
    | error e =>
      simp only [check, checkErrorHandler]
      split_ifs <;> simp
    | ok html =>
      simp only [check, checkErrorHandler]
      split_ifs <;> simp

end SiteChecker
